import Mathlib

/-!
Verification of the gobble real-time transit event pipeline
(transitmatters/gobble) against its natural-language specification.

The Python sources under `src/` are shallowly embedded as executable Lean
definitions.  Machine dates and times are modelled with explicit calendar
arithmetic on `Nat`/`Int` (Python `datetime` restricts years to 1..9999, so
all day numbers are nonnegative); Python `dict`s are modelled as insertion
ordered association lists; fallible code returns `Option`.
-/

namespace Gobble

/-! ## Calendar and datetime model (Python `datetime` semantics)

Python `datetime.date`/`datetime.datetime` use the proleptic Gregorian
calendar.  A date is modelled by its `(year, month, day)` fields and a
datetime by its naive wall-clock fields plus an optional `tzinfo`; a
`tzinfo` is modelled by its name and resolved UTC offset in seconds. -/

/-- Gregorian leap-year rule, as in Python's `calendar.isleap`. -/
def isLeapYear (y : Nat) : Bool :=
  (y % 4 == 0 && y % 100 != 0) || y % 400 == 0

/-- Number of days in a month of a given year (proleptic Gregorian). -/
def daysInMonth (y : Nat) (m : Nat) : Nat :=
  if m = 2 then (if isLeapYear y then 29 else 28)
  else if m = 4 ∨ m = 6 ∨ m = 9 ∨ m = 11 then 30
  else 31

/-- A calendar date, as Python's `datetime.date` (year 1..9999). -/
structure Date where
  year : Nat
  month : Nat
  day : Nat
deriving DecidableEq, Repr

/-- Python `date` comparison is lexicographic on `(year, month, day)`. -/
def Date.ltb (a b : Date) : Bool :=
  a.year < b.year ||
    (a.year == b.year &&
      (a.month < b.month || (a.month == b.month && a.day < b.day)))

/-- The calendar day immediately before `d`.  This is the effect of Python's
`d - timedelta(days=1)` on the date fields (time-of-day and `tzinfo` are
untouched by that subtraction). -/
def Date.prevDay (d : Date) : Date :=
  if 2 ≤ d.day then ⟨d.year, d.month, d.day - 1⟩
  else if 2 ≤ d.month then ⟨d.year, d.month - 1, daysInMonth d.year (d.month - 1)⟩
  else ⟨d.year - 1, 12, 31⟩

/-- Cumulative day count before month `m` in a non-leap year. -/
def cumDaysBeforeMonth (m : Nat) : Nat :=
  match m with
  | 1 => 0 | 2 => 31 | 3 => 59 | 4 => 90 | 5 => 120 | 6 => 151
  | 7 => 181 | 8 => 212 | 9 => 243 | 10 => 273 | 11 => 304 | 12 => 334
  | _ => 0

/-- Day number of a date: days elapsed since 0001-01-01 (rata die minus one).
Python's ordinal is this plus one; only differences of day numbers matter
below. -/
def Date.toDayNumber (d : Date) : Nat :=
  let y := d.year - 1
  365 * y + y / 4 + y / 400 - y / 100
    + cumDaysBeforeMonth d.month
    + (if 3 ≤ d.month && isLeapYear d.year then 1 else 0)
    + (d.day - 1)

/-- Inverse of `Date.toDayNumber` (civil-from-days, Gregorian).  Uses the
standard era decomposition with the day count rebased to 0000-03-01 so that
all intermediate values stay in `Nat`. -/
def Date.ofDayNumber (n : Nat) : Date :=
  -- 0001-01-01 is 306 days after 0000-03-01
  let z := n + 306
  let era := z / 146097
  let doe := z % 146097
  let yoe := (doe - doe / 1460 + doe / 36524 - doe / 146096) / 365
  let y := yoe + era * 400
  let doy := doe - (365 * yoe + yoe / 4 - yoe / 100)
  let mp := (5 * doy + 2) / 153
  let dday := doy - (153 * mp + 2) / 5 + 1
  let m := if mp < 10 then mp + 3 else mp - 9
  ⟨if m ≤ 2 then y + 1 else y, m, dday⟩

/-- A timezone, modelled by its name and resolved UTC offset in seconds. -/
structure Tz where
  name : String
  utcoffset : Int
deriving DecidableEq, Repr

/-- `ZoneInfo("US/Eastern")` (util.py `EASTERN_TIME`); its standard offset is
UTC−5 h.  The claims verified below never depend on the numeric offset of
this zone (daylight-saving variation is immaterial to them). -/
def EASTERN_TIME : Tz := ⟨"US/Eastern", -18000⟩

/-- `timezone.utc`. -/
def UTC_TIME : Tz := ⟨"UTC", 0⟩

/-- A Python `datetime`: naive wall-clock fields plus optional `tzinfo`. -/
structure DateTime where
  year : Nat
  month : Nat
  day : Nat
  hour : Nat
  minute : Nat
  second : Nat
  tz : Option Tz
deriving DecidableEq, Repr

/-- The calendar-date part of a datetime (`date(ts.year, ts.month, ts.day)`). -/
def DateTime.calendarDate (ts : DateTime) : Date := ⟨ts.year, ts.month, ts.day⟩

/-- Seconds of the naive wall-clock reading since 0001-01-01 00:00. -/
def DateTime.naiveEpoch (ts : DateTime) : Nat :=
  ts.calendarDate.toDayNumber * 86400 + ts.hour * 3600 + ts.minute * 60 + ts.second

/-- The instant denoted by an aware datetime, as seconds since 0001-01-01
00:00 UTC.  Python compares aware datetimes by this instant.  A naive
datetime is taken at offset 0 (Python would refuse to compare naive with
aware; the embedded code only ever compares like with like). -/
def DateTime.toEpoch (ts : DateTime) : Int :=
  (ts.naiveEpoch : Int) - (ts.tz.map Tz.utcoffset).getD 0

/-- `ts - timedelta(days=1)`: Python timedelta arithmetic shifts the naive
wall-clock fields and keeps `tzinfo`; subtracting one day moves the date
fields to the previous calendar day. -/
def DateTime.subOneDay (ts : DateTime) : DateTime :=
  let d := Date.prevDay ts.calendarDate
  { ts with year := d.year, month := d.month, day := d.day }

/-- `ts.astimezone`/`Timestamp.tz_convert` to `US/Eastern`: same instant,
wall-clock fields rebuilt in the Eastern representation. -/
def DateTime.tzConvertEastern (ts : DateTime) : DateTime :=
  let naive : Int := ts.toEpoch + EASTERN_TIME.utcoffset
  let n : Nat := naive.toNat
  let d := Date.ofDayNumber (n / 86400)
  let rem := n % 86400
  ⟨d.year, d.month, d.day, rem / 3600, rem % 3600 / 60, rem % 60, some EASTERN_TIME⟩

/-! ## util.py -/

/-- `util.service_date`: replaces `tzinfo` with Eastern (no conversion), then
returns the calendar date when the hour is in `3..23`, else the calendar
date of the previous day (`ts - timedelta(days=1)`). -/
def service_date (ts : DateTime) : Date :=
  -- In practice a None TZ is UTC, but we want to be explicit (comment in source);
  -- `ts.replace(tzinfo=EASTERN_TIME)` swaps the tag without touching the fields.
  let ts := { ts with tz := some EASTERN_TIME }
  if 3 ≤ ts.hour ∧ ts.hour ≤ 23 then
    ⟨ts.year, ts.month, ts.day⟩
  else
    let prior := ts.subOneDay
    ⟨prior.year, prior.month, prior.day⟩

/-! ## Association lists (Python `dict`s) -/

/-- Lookup in an insertion-ordered association list (`dict.get`). -/
def alookup {α : Type} : List (String × α) → String → Option α
  | [], _ => none
  | (k, v) :: rest, key => if k = key then some v else alookup rest key

/-- `dict[key] = value`: replace in place when the key exists, else append
(Python dicts keep the original insertion position on reassignment). -/
def asetEntry {α : Type} : List (String × α) → String → α → List (String × α)
  | [], key, v => [(key, v)]
  | (k, w) :: rest, key, v =>
    if k = key then (k, v) :: rest else (k, w) :: asetEntry rest key v

/-! ## constants.py -/

/-- `constants.BUS_STOPS`: monitored stops per bus route, embedded verbatim
from constants.py (Python set literals become lists; only membership is
ever used). -/
def BUS_STOPS : List (String × List String) := [
  ("1", ["110", "188", "62", "59", "102", "72", "79", "93", "2", "64", "75", "67", "97", "10590", "187", "108"]),
  ("4", ["892", "117", "214", "243", "65471", "210", "190", "224", "236", "113", "6564", "114", "83091", "31255", "11891", "21599", "11599"]),
  ("9", ["33", "41", "25", "886", "45", "21", "157", "150", "151", "36541", "148", "175"]),
  ("10", ["40001", "41", "25", "178", "33", "13", "412", "8", "13321", "175", "11384", "407", "176", "20", "45", "29051", "5089", "1565", "5091", "11241", "395"]),
  ("11", ["286", "150", "258", "15095", "30294", "33", "275", "268", "151", "6565", "16538", "6564"]),
  ("14", ["386", "6460", "1761", "1747", "11531", "26500", "10424", "383", "797", "407", "64000", "6433", "415", "412", "390"]),
  ("15", ["11257", "1468", "1475", "1480", "1486", "1497", "1503", "1504", "1508", "1515", "17861", "17863", "21148", "322", "323", "64", "64000"]),
  ("16", ["875", "1565", "2922", "1587", "2925", "2919", "2931", "2913", "1480", "2910", "29051", "11241", "13", "121", "35201", "142", "111"]),
  ("17", ["323", "1475", "1508", "1480", "2910", "2935", "362", "13"]),
  ("18", ["13", "180", "334", "322", "323"]),
  ("19", ["323", "322", "562", "552", "565", "550", "386", "412", "390", "407", "395", "396", "40001", "64", "64002", "64000", "7", "17862", "1799", "1784", "1804", "1779", "9441", "1520", "899"]),
  ("21", ["334", "537", "533", "499", "507", "543", "526", "546", "5232", "10642", "875"]),
  ("22", ["10413", "11531", "1188", "1222", "1258", "1267", "17391", "1741", "17411", "17861", "17862", "17863", "21148", "334", "371", "378", "383", "415", "419", "426"]),
  ("23", ["11257", "13321", "17861", "17862", "21148", "334", "371", "386", "390", "396", "40001", "407", "412", "426", "463", "468", "473", "478", "64000"]),
  ("26", ["507", "334", "426", "511", "371"]),
  ("28", ["11257", "11712", "13321", "1714", "1728", "1731", "1737", "17861", "17862", "18511", "21148", "383", "386", "390", "396", "40001", "407", "412", "415", "419", "64000"]),
  ("32", ["10642", "2819", "36466", "42819", "6471", "6474", "6478", "6496", "6500", "6504", "6509", "875"]),
  ("34", ["70618", "99832", "10833", "621", "616", "625", "10612", "628", "609", "633", "604", "636", "6022", "602", "10642", "875"]),
  ("39", ["10642", "11131", "1128", "11388", "11389", "1160", "1317", "1363", "175", "1939", "23391", "31317", "31365", "41391", "6574", "65741", "81317", "91391"]),
  ("41", ["11939", "1939", "11131", "11609", "1160", "11531", "64000", "1497", "1486", "2933", "2910", "2935", "123", "136", "122", "121"]),
  ("45", ["1565", "383", "415", "1566", "1586", "1569", "1583", "1576", "1577", "64000", "21148", "11257", "17861", "17863"]),
  ("47", ["72", "1123", "1773", "1809", "1779", "1804", "17861", "17863", "64", "10006", "10015", "5090", "10008", "10011", "150"]),
  ("55", ["1926", "1932", "1931", "11391", "178", "10000"]),
  ("57", ["899", "900", "903", "912", "913", "918", "925", "926", "931", "934", "937", "954", "956", "959", "966", "973", "9780", "979", "987"]),
  ("61", ["7784", "7783", "86944", "18928", "89610"]),
  ("66", ["1111", "1302", "1308", "1317", "1323", "1357", "1362", "1372", "1378", "1526", "1555", "21148", "22549", "2553", "2561", "64000", "925", "926", "966"]),
  ("70", ["9522", "9526", "9525", "86944", "88333", "8678", "8825", "8297", "8178", "8815", "1043", "1077", "1051", "1070", "1123", "72", "730"]),
  ("71", ["2020", "2025", "2030", "2043", "2050", "2064", "2070", "2074", "2076", "20761", "32549", "8178"]),
  ("73", ["2020", "2025", "2030", "2064", "2070", "2074", "2076", "20761", "2108", "2117", "2125", "2134", "32549"]),
  ("77", ["12295", "12301", "2076", "20761", "20762", "2251", "2258", "2265", "22671", "2271", "22751", "2277", "2282", "2291", "2296", "2307", "2310", "23151", "2320", "2321", "32549", "7922"]),
  ("85", ["2574", "2519", "2510", "2528", "2231"]),
  ("86", ["20761", "29005", "29001", "28741", "2874", "2612", "2597", "22549", "2553", "2561", "1077", "1043", "1084", "1026", "21917"]),
  ("89", ["2637", "5104", "5015", "2695", "2738", "2691", "2634", "2703", "2729", "29001", "29011", "2874"]),
  ("91", ["28741", "2874", "29006", "29001", "2612", "2597", "2531", "2439", "12439", "2451", "12451", "1060"]),
  ("92", ["28741", "2874", "29009", "29001", "2821", "32840", "28281", "2835", "117", "30203", "83091", "6548"]),
  ("104", ["53270", "5347", "5361", "5354", "5518", "5517", "5496", "5695", "5560", "5565", "2874"]),
  ("109", ["7412", "7417", "5481", "5524", "5488", "5518", "5517", "5496", "5695", "5560", "5565", "2874"]),
  ("111", ["12001", "12002", "12003", "12004", "2829", "2832", "5547", "5592", "5595", "5601", "5602", "5605", "5607", "5611", "5615", "5620", "5626", "5629", "5636", "8309", "8310"]),
  ("114", ["5045", "5605", "5615", "5736", "5740", "5743"]),
  ("116", ["15795", "5605", "5615", "56170", "5713", "5720", "5736", "5740", "5743", "5755", "5763"]),
  ("117", ["15795", "4717", "4733", "5605", "5615", "5713", "5714", "5720", "5736", "5740", "5743", "5755", "5761", "5790", "8309", "8310"]),
  ("220", ["3582", "3595", "3560", "3603", "36031", "3549", "3616", "3539", "3630", "3525", "3639", "3516", "32004"]),
  ("221", ["3616", "3539", "3630", "3525", "32004"]),
  ("222", ["13844", "3684", "3692", "3675", "4439", "4435", "3707", "3539", "3630", "3525", "3639", "3516", "32004"])]

/-- `constants.ROUTES_CR`. -/
def ROUTES_CR : List String := ["CR-Fairmount", "CR-Fitchburg", "CR-Worcester", "CR-Franklin", "CR-Greenbush", "CR-Haverhill", "CR-Kingston", "CR-Lowell", "CR-Middleborough", "CR-Needham", "CR-Newburyport", "CR-Providence", "CR-Foxboro"]

/-- `constants.ROUTES_RAPID`. -/
def ROUTES_RAPID : List String := ["Red", "Blue", "Orange", "Green-B", "Green-C", "Green-D", "Green-E"]

/-- `constants.ROUTES_BUS = set(BUS_STOPS.keys())`. -/
def ROUTES_BUS : List String := BUS_STOPS.map Prod.fst

/-- `constants.ALL_ROUTES = ROUTES_BUS | ROUTES_CR | ROUTES_RAPID` (membership
in the union is what the code consumes). -/
def ALL_ROUTES : List String := ROUTES_BUS ++ ROUTES_CR ++ ROUTES_RAPID

/-! ## disk.py — partitioned CSV writer -/

/-- `disk.CSV_FIELDS`, exactly as defined in disk.py (12 column names). -/
def CSV_FIELDS : List String := [
  "service_date",
  "route_id",
  "trip_id",
  "direction_id",
  "stop_id",
  "stop_sequence",
  "vehicle_id",
  "vehicle_label",
  "event_type",
  "event_time",
  "scheduled_headway",
  "scheduled_tt"]

/-- The 15-column schema the specification prescribes (and which the
repository's own tests/test_disk.py::test_csv_fields_contains_expected_fields
asserts of `disk.CSV_FIELDS`).  Kept separate so it can be compared with the
source's `CSV_FIELDS`. -/
def CSV_FIELDS_spec : List String := [
  "service_date",
  "route_id",
  "trip_id",
  "direction_id",
  "stop_id",
  "stop_sequence",
  "vehicle_id",
  "vehicle_label",
  "event_type",
  "event_time",
  "scheduled_headway",
  "scheduled_tt",
  "vehicle_consist",
  "occupancy_status",
  "occupancy_percentage"]

/-- One cell written by `csv.DictWriter(fd, fieldnames=CSV_FIELDS,
extrasaction="ignore")`: the event dict value for the field (already
stringified), the empty string for a `None` value, and the default
`restval ""` for an absent key.  Keys of the event dict outside
`CSV_FIELDS` are ignored. -/
def csvCell (event : List (String × Option String)) (field : String) : String :=
  match alookup event field with
  | some (some v) => v
  | some none => ""
  | none => ""

/-- The CSV data row `writer.writerow(event)` appends for an event dict. -/
def writeRow (event : List (String × Option String)) : List String :=
  CSV_FIELDS.map (csvCell event)

/-- `disk.write_event`, restricted to the shard file it appends to: when the
file does not yet exist the header row (`CSV_FIELDS`) is written first, then
the event row is appended. -/
def write_event (existing : Option (List (List String))) (event : List (String × Option String)) :
    List (List String) :=
  match existing with
  | none => [CSV_FIELDS, writeRow event]
  | some rows => rows ++ [writeRow event]

/-! ## trip_state.py — per-route trip-state store -/

/-- `trip_state.TripState` (a `TypedDict` in the source). -/
structure TripState where
  stop_sequence : Int
  stop_id : String
  updated_at : DateTime
  event_type : String
  vehicle_consist : String
  occupancy_status : Option String
  occupancy_percentage : Option String
deriving DecidableEq, Repr

/-- `trip_state.RouteTripsState` (the dataclass fields; persistence is
modelled by returning the snapshot that `write_trips_state_file`
serialises). -/
structure RouteTripsState where
  route_id : String
  service_date : Date
  trips : List (String × TripState)
deriving DecidableEq, Repr

/-- `RouteTripsState._cleanup_stale_trip_states`: with `current_time =
datetime.now(EASTERN_TIME)` passed explicitly, removes entries whose
`updated_at` instant is before `current_time - timedelta(hours=max_age_hours)`
(the source's default for `max_age_hours` is 5). -/
def cleanup_stale_trip_states (now : DateTime) (maxAgeHours : Nat) (s : RouteTripsState) :
    RouteTripsState :=
  let cutoff : Int := now.toEpoch - maxAgeHours * 3600
  { s with trips := s.trips.filter (fun p => ¬ (p.2.updated_at.toEpoch < cutoff)) }

/-- `RouteTripsState._purge_trips_state_if_overnight`: with
`get_current_service_date()` passed explicitly, drops every entry and adopts
the new date when the stored service date is older. -/
def purge_trips_state_if_overnight (currentServiceDate : Date) (s : RouteTripsState) :
    RouteTripsState :=
  if s.service_date.ltb currentServiceDate then
    { s with service_date := currentServiceDate, trips := [] }
  else s

/-- `RouteTripsState._cleanup_trip_states`: stale cleanup first, then the
overnight purge. -/
def cleanup_trip_states (now : DateTime) (currentServiceDate : Date) (s : RouteTripsState) :
    RouteTripsState :=
  purge_trips_state_if_overnight currentServiceDate (cleanup_stale_trip_states now 5 s)

/-- `RouteTripsState.set_trip_state`: cleanup first, then insert the new
entry, then persist.  The second component is the snapshot passed to
`write_trips_state_file` (which serialises exactly this value to
`{data_root}/trip_states/{route_id}.json`). -/
def set_trip_state (now : DateTime) (currentServiceDate : Date) (s : RouteTripsState)
    (trip_id : String) (ts : TripState) : RouteTripsState × RouteTripsState :=
  let s := cleanup_trip_states now currentServiceDate s
  let s := { s with trips := asetEntry s.trips trip_id ts }
  (s, s)

/-- `RouteTripsState.get_trip_state`: returns a copy of the entry (or `None`)
and leaves the store as it was; the source's getter performs no cleanup.  The
pair result mirrors the method's `(return value, post-call state)`. -/
def get_trip_state (s : RouteTripsState) (trip_id : String) :
    Option TripState × RouteTripsState :=
  (alookup s.trips trip_id, s)

/-! ## gtfs.py — schedule model and `add_gtfs_headways`

`read_gtfs` loads `trips.txt` and `stop_times.txt` into dataframes whose
rows are modelled by the structures below; `arrival_time`/`departure_time`
are `pd.to_timedelta` durations since midnight, modelled in whole seconds. -/

/-- A row of the `trips` dataframe (the columns `add_gtfs_headways` uses). -/
structure TripRow where
  trip_id : String
  route_id : String
  direction_id : Nat
deriving DecidableEq, Repr

/-- A row of the `stop_times` dataframe (`STOP_TIMES_COLS`). -/
structure StopTimeRow where
  stop_id : String
  trip_id : String
  arrival_time : Int
  departure_time : Int
  stop_sequence : Int
deriving DecidableEq, Repr

/-- A row of `gtfs_stops = stop_times.merge(trip_info, on="trip_id")`. -/
structure GtfsStopRow where
  stop_id : String
  trip_id : String
  arrival_time : Int
  departure_time : Int
  stop_sequence : Int
  route_id : String
  direction_id : Nat
deriving DecidableEq, Repr

/-- The `RTE_DIR_STOP` grouping key of a schedule row. -/
def rowKey (r : GtfsStopRow) : String × Nat × String :=
  (r.route_id, r.direction_id, r.stop_id)

/-- `stop_times.merge(trip_info, on="trip_id", how="right")`, restricted to
matched pairs.  A right-join row for a trip with no stop-time rows carries
null stop/arrival fields: it can never share an `RTE_DIR_STOP` group or an
as-of key with a real event, so such rows are omitted from the model. -/
def mergeTripInfo (stop_times : List StopTimeRow) (trip_info : List TripRow) :
    List GtfsStopRow :=
  trip_info.flatMap fun t =>
    (stop_times.filter (fun s => s.trip_id == t.trip_id)).map fun s =>
      ⟨s.stop_id, s.trip_id, s.arrival_time, s.departure_time, s.stop_sequence,
        t.route_id, t.direction_id⟩

/-- Stable insertion of a row into a list sorted by `arrival_time`. -/
def insertByArrival (r : GtfsStopRow) : List GtfsStopRow → List GtfsStopRow
  | [] => [r]
  | s :: rest =>
    if r.arrival_time < s.arrival_time then r :: s :: rest
    else s :: insertByArrival r rest

/-- `gtfs_stops.sort_values(by="arrival_time")`, as a stable sort.  (pandas
uses an unstable quicksort; every observable proved below is insensitive to
the relative order of rows with equal `arrival_time`.) -/
def sortByArrival : List GtfsStopRow → List GtfsStopRow
  | [] => []
  | r :: rest => insertByArrival r (sortByArrival rest)

/-- `gtfs_stops.groupby(RTE_DIR_STOP).arrival_time.diff()` followed by
`.dt.seconds`, as a left-to-right scan: each row is paired with the seconds
component (`mod 86400`) of its arrival-time difference to the closest
preceding row of the same `RTE_DIR_STOP` group, or `none` for the first row
of its group.  (`headways.fillna("")` in the source is a no-op: the empty
string standardises to `NaT`, so the first row of each group keeps a missing
headway, and `.dt.seconds` of `NaT` stays missing.) -/
def headwayScan (seen : List GtfsStopRow) : List GtfsStopRow → List (GtfsStopRow × Option Int)
  | [] => []
  | r :: rest =>
    let prev := (seen.filter (fun p => rowKey p == rowKey r)).head?
    (r, prev.map (fun p => (r.arrival_time - p.arrival_time) % 86400)) ::
      headwayScan (r :: seen) rest

/-- `gtfs_stops.groupby("trip_id").arrival_time.transform("min")` for one
trip: the least arrival time among the trip's rows.  The default is never
reached for a row of `rows` (its own arrival is a candidate). -/
def tripStartTime (rows : List GtfsStopRow) (trip : String) : Int :=
  (((rows.filter (fun r => r.trip_id == trip)).map (fun r => r.arrival_time)).min?).getD 0

/-- A `gtfs_stops` row with its computed `scheduled_headway` and
`scheduled_tt` columns (both `.dt.seconds`, hence `mod 86400`). -/
structure SchedRow where
  row : GtfsStopRow
  scheduled_headway : Option Int
  scheduled_tt : Int
deriving DecidableEq, Repr

/-- The `gtfs_stops` frame after the headway and travel-time columns are
added (source lines: headway diff per group, then
`scheduled_tt = (arrival_time - trip_start_times).dt.seconds`). -/
def annotateSched (rows : List GtfsStopRow) : List SchedRow :=
  (headwayScan [] rows).map fun p =>
    ⟨p.1, p.2, (p.1.arrival_time - tripStartTime rows p.1.trip_id) % 86400⟩

/-- The single event row handed to `add_gtfs_headways` (the dict built in
`process_event`, as a dataframe row). -/
structure HeadwayEvent where
  service_date : Date
  route_id : String
  trip_id : String
  direction_id : Nat
  stop_id : String
  stop_sequence : Int
  vehicle_id : String
  vehicle_label : String
  event_type : String
  event_time : DateTime
  vehicle_consist : String
  occupancy_status : Option String
  occupancy_percentage : Option String
deriving DecidableEq, Repr

/-- Does a schedule row lie in the event's `RTE_DIR_STOP` group? -/
def sameKeyEvent (e : HeadwayEvent) (r : GtfsStopRow) : Bool :=
  r.route_id == e.route_id && r.direction_id == e.direction_id && r.stop_id == e.stop_id

/-- `event_df.event_time - pd.Timestamp(service_date).tz_localize(EASTERN_TIME)`:
the event's elapsed seconds since midnight (Eastern) of its service date. -/
def eventArrival (e : HeadwayEvent) : Int :=
  e.event_time.toEpoch - ((e.service_date.toDayNumber : Int) * 86400 - EASTERN_TIME.utcoffset)

/-- `pd.merge_asof(..., direction="backward", by=RTE_DIR_STOP)` for the single
event row: the last row of the (arrival-sorted) frame in the event's group
with `arrival_time ≤ t`. -/
def asofBackward (sched : List SchedRow) (e : HeadwayEvent) (t : Int) : Option SchedRow :=
  (sched.filter (fun r => sameKeyEvent e r.row && r.row.arrival_time ≤ t)).getLast?

/-- `pd.merge_asof(..., direction="nearest", by=RTE_DIR_STOP)` for the single
event row: whichever of the backward and forward candidates is closer in
time, ties toward the earlier (backward) one. -/
def asofNearest (sched : List SchedRow) (e : HeadwayEvent) (t : Int) : Option SchedRow :=
  let grp := sched.filter (fun r => sameKeyEvent e r.row)
  let back := (grp.filter (fun r => r.row.arrival_time ≤ t)).getLast?
  let fwd := (grp.filter (fun r => t < r.row.arrival_time)).head?
  match back, fwd with
  | none, none => none
  | some b, none => some b
  | none, some f => some f
  | some b, some f =>
    if t - b.row.arrival_time ≤ f.row.arrival_time - t then some b else some f

/-- The event row with the columns `add_gtfs_headways` appends. -/
structure EnrichedEvent where
  event : HeadwayEvent
  arrival_time : Int
  scheduled_headway : Option Int
  scheduled_trip_id : Option String
  scheduled_tt : Option Int
deriving DecidableEq, Repr

/-- `gtfs.add_gtfs_headways` on a single event row: filter the trips to the
event's route, join stop times with trip info, sort by arrival time, compute
the headway and travel-time columns, attach `scheduled_headway` by a backward
as-of join, pick a `scheduled_trip_id` by a nearest as-of join, and look up
that trip's `scheduled_tt` at the event's `RTE_DIR_STOP` key (first matching
row, as the left-merge followed by `.to_dict("records")[0]` does). -/
def add_gtfs_headways (e : HeadwayEvent) (all_trips : List TripRow)
    (all_stops : List StopTimeRow) : EnrichedEvent :=
  let relevant_trips := all_trips.filter (fun tr => tr.route_id == e.route_id)
  let gtfs_stops := sortByArrival (mergeTripInfo all_stops relevant_trips)
  let sched := annotateSched gtfs_stops
  let t := eventArrival e
  let headway := (asofBackward sched e t).bind (fun r => r.scheduled_headway)
  let nearest := asofNearest sched e t
  let scheduled_trip_id := nearest.map (fun r => r.row.trip_id)
  let scheduled_tt :=
    match scheduled_trip_id with
    | none => none
    | some st =>
      ((sched.filter (fun r => sameKeyEvent e r.row && r.row.trip_id == st)).head?).map
        (fun r => r.scheduled_tt)
  { event := e, arrival_time := t, scheduled_headway := headway,
    scheduled_trip_id := scheduled_trip_id, scheduled_tt := scheduled_tt }

/-- `gtfs.GtfsArchive` (the dataframes the event path reads). -/
structure GtfsArchive where
  trips : List TripRow
  stop_times : List StopTimeRow
  stops : List (String × String)
  service_date : Date
deriving DecidableEq, Repr

/-- `GtfsArchive.trips_by_route_id`: the route's group of `trips` (an absent
route yields the empty frame). -/
def GtfsArchive.trips_by_route_id (a : GtfsArchive) (route_id : String) : List TripRow :=
  a.trips.filter (fun t => t.route_id == route_id)

/-- `GtfsArchive.stop_times_by_route_id`: stop times whose `trip_id` is among
the route's trips. -/
def GtfsArchive.stop_times_by_route_id (a : GtfsArchive) (route_id : String) :
    List StopTimeRow :=
  a.stop_times.filter (fun s => (a.trips_by_route_id route_id).any (fun t => t.trip_id == s.trip_id))

/-! ## event.py — update reduction and event detection -/

/-- `event.EVENT_TYPE_MAP`. -/
def EVENT_TYPE_MAP : List (String × String) :=
  [("IN_TRANSIT_TO", "DEP"), ("STOPPED_AT", "ARR"), ("INCOMING_AT", "ARR")]

/-- One entry of `update["attributes"]["carriages"]` (shape shared by the
MBTA v3 payloads and by `convert_vehicle_position_to_event`). -/
structure Carriage where
  label : Option String
  occupancy_status : Option String
  occupancy_percentage : Option Int
deriving DecidableEq, Repr

/-- `update["attributes"]` (the fields the pipeline reads). -/
structure UpdateAttributes where
  current_status : String
  updated_at : DateTime
  current_stop_sequence : Int
  direction_id : Nat
  label : String
  carriages : List Carriage
  occupancy_status : Option String
  occupancy_percentage : Option Int
deriving DecidableEq, Repr

/-- A raw vehicle update dict.  `stop_id` is
`update["relationships"]["stop"]["data"]["id"]`, already `none` when the stop
information is degenerate (the `TypeError`/`KeyError` handler in
`reduce_update_event`). -/
structure Update where
  attributes : UpdateAttributes
  route_id : String
  stop_id : Option String
  trip_id : String
deriving DecidableEq, Repr

/-- The tuple `reduce_update_event` returns. -/
structure ReducedEvent where
  current_status : String
  event_type : String
  current_stop_sequence : Int
  direction_id : Nat
  route_id : String
  stop_id : Option String
  trip_id : String
  vehicle_label : String
  updated_at : DateTime
  vehicle_consist : String
  occupancy_status : Option String
  occupancy_percentage : Option String
deriving DecidableEq, Repr

/-- All values of a list of options, or `none` when any is missing. -/
def allSome {α : Type} : List (Option α) → Option (List α)
  | [] => some []
  | none :: _ => none
  | some a :: rest => (allSome rest).map (fun l => a :: l)

/-- `"|".join(l)`. -/
def joinPipe (l : List String) : String := String.intercalate "|" l

/-- `str(p)` for an optional occupancy percentage (`str(None) = "None"`). -/
def pctStr (p : Option Int) : String :=
  match p with
  | some v => toString v
  | none => "None"

/-- The consist/occupancy block of `reduce_update_event` (source lines
120–138): with carriages, the pipe-joined labels; the pipe-joined occupancy
statuses when the first carriage has one (a later `None` status makes
`"|".join` raise — modelled by `none`); the pipe-joined `str(...)`d
percentages when the first carriage has one (`str(None)` is `"None"`, so
this join never raises).  Without carriages, the top-level label and
occupancy status. -/
def reduce_consist (attrs : UpdateAttributes) :
    Option (String × Option String × Option String) :=
  match attrs.carriages with
  | [] => some (attrs.label, attrs.occupancy_status, none)
  | c0 :: _ =>
    (allSome (attrs.carriages.map (fun c : Carriage => c.label))).bind fun labels =>
    (match c0.occupancy_status with
      | none => some none
      | some _ =>
        (allSome (attrs.carriages.map (fun c : Carriage => c.occupancy_status))).map
          (fun l => some (joinPipe l))).bind fun occS =>
    some (joinPipe labels, occS,
      match c0.occupancy_percentage with
      | none => none
      | some _ =>
        some (joinPipe (attrs.carriages.map (fun c : Carriage => pctStr c.occupancy_percentage))))

/-- `event.reduce_update_event`.  `none` models a raised exception: a
`KeyError` for an unmapped `current_status`, or the `TypeError` inside
`reduce_consist`. -/
def reduce_update_event (u : Update) : Option ReducedEvent :=
  (alookup EVENT_TYPE_MAP u.attributes.current_status).bind fun event_type =>
  (reduce_consist u.attributes).map fun consist_occ =>
    { current_status := u.attributes.current_status
      event_type := event_type
      current_stop_sequence := u.attributes.current_stop_sequence
      direction_id := u.attributes.direction_id
      route_id := u.route_id
      stop_id := u.stop_id
      trip_id := u.trip_id
      vehicle_label := u.attributes.label
      updated_at := u.attributes.updated_at
      vehicle_consist := consist_occ.1
      occupancy_status := consist_occ.2.1
      occupancy_percentage := consist_occ.2.2 }

/-- The `prev` dict consumed by `arr_or_dep_event` (either the stored
`TripState` or the snapshot synthesised from the current update). -/
structure PrevState where
  stop_sequence : Int
  stop_id : String
  updated_at : DateTime
  event_type : String
deriving DecidableEq, Repr

/-- `event.arr_or_dep_event`: `(is_departure_event, is_arrival_event)`.  The
`event_type` parameter is the default of the source's
`prev.get("event_type", event_type)`; the stored and the synthesised `prev`
both carry an `event_type`, so the default is never consulted. -/
def arr_or_dep_event (prev : PrevState) (current_status : String)
    (current_stop_sequence : Int) (event_type : String) (stop_id : String) : Bool × Bool :=
  (prev.stop_id != stop_id && decide (prev.stop_sequence < current_stop_sequence),
    current_status == "STOPPED_AT" && prev.event_type == "DEP")

/-- `event.get_stop_name`: first matching stop name, or the raw id. -/
def get_stop_name (stops : List (String × String)) (stop_id : String) : String :=
  match alookup stops stop_id with
  | some nm => nm
  | none => stop_id

/-- The stop filter of `process_event`:
`route_id in ROUTES_CR.union(ROUTES_RAPID) or stop_id in BUS_STOPS.get(route_id, {})`. -/
def stop_filter_gate (route_id : String) (stop_id : String) : Bool :=
  (ROUTES_CR ++ ROUTES_RAPID).contains route_id ||
    ((alookup BUS_STOPS route_id).getD []).contains stop_id

/-- `trip_state.TripsStateManager` (one per worker thread). -/
structure TripsStateManager where
  route_states : List (String × RouteTripsState)
deriving DecidableEq, Repr

/-- `TripsStateManager.get_trip_state`: `None` for an unknown route, else the
route store's (non-mutating) getter. -/
def TripsStateManager.get_trip_state (m : TripsStateManager) (route_id : String)
    (trip_id : String) : Option TripState :=
  match alookup m.route_states route_id with
  | none => none
  | some rs => (Gobble.get_trip_state rs trip_id).1

/-- `TripsStateManager.set_trip_state`; a first write to a route creates its
`RouteTripsState`.  `RouteTripsState.__post_init__` starts from the persisted
state file when one exists; the fresh-store branch is modelled (the claims
below quantify over arbitrary pre-existing managers, which subsumes any
loaded file). -/
def TripsStateManager.set_trip_state (now : DateTime) (currentServiceDate : Date)
    (m : TripsStateManager) (route_id : String) (trip_id : String) (ts : TripState) :
    TripsStateManager :=
  let rs :=
    match alookup m.route_states route_id with
    | some rs => rs
    | none => ⟨route_id, currentServiceDate, []⟩
  let rs := (Gobble.set_trip_state now currentServiceDate rs trip_id ts).1
  ⟨asetEntry m.route_states route_id rs⟩

/-- Ambient state read by `process_event`: the wall clock used by the
trip-state cleanup, `get_current_service_date()`, and the current GTFS
archive (`gtfs.get_current_gtfs_archive()`). -/
structure PipelineEnv where
  now : DateTime
  current_service_date : Date
  archive : GtfsArchive
deriving Repr

/-- The single-row dataframe built in `process_event` before enrichment
(`vehicle_id` is the reserved `"0"`). -/
def mk_event_row (r : ReducedEvent) (stop_id : String) : HeadwayEvent :=
  { service_date := service_date r.updated_at
    route_id := r.route_id
    trip_id := r.trip_id
    direction_id := r.direction_id
    stop_id := stop_id
    stop_sequence := r.current_stop_sequence
    vehicle_id := "0"
    vehicle_label := r.vehicle_label
    event_type := r.event_type
    event_time := r.updated_at
    vehicle_consist := r.vehicle_consist
    occupancy_status := r.occupancy_status
    occupancy_percentage := r.occupancy_percentage }

/-- `event.enrich_event`: convert `event_time` to Eastern, then apply
`add_gtfs_headways` to the route's trips and stop times. -/
def enrich_event (row : HeadwayEvent) (archive : GtfsArchive) : EnrichedEvent :=
  let row := { row with event_time := row.event_time.tzConvertEastern }
  add_gtfs_headways row (archive.trips_by_route_id row.route_id)
    (archive.stop_times_by_route_id row.route_id)

/-- The `prev_trip_state` of `process_event` (lines 200–211): the stored
state for `(route_id, trip_id)`, or a snapshot synthesised from the current
update on the first observation. -/
def prev_trip_state (tsm : TripsStateManager) (r : ReducedEvent) (stop_id0 : String) :
    PrevState :=
  match tsm.get_trip_state r.route_id r.trip_id with
  | some ts => ⟨ts.stop_sequence, ts.stop_id, ts.updated_at, ts.event_type⟩
  | none => ⟨r.current_stop_sequence, stop_id0, r.updated_at, r.event_type⟩

/-- `event.process_event`: reduce the update (`none` models a raised
exception, which the worker loop catches, dropping the update with no state
change), drop it when no stop is associated, detect departure/arrival
against the previous state, attribute the departure's `stop_id` to the prior
stop, write the enriched event when the stop filter passes, and always store
the new trip state (note the reassigned `stop_id` local is the one stored). -/
def process_event (env : PipelineEnv) (u : Update) (tsm : TripsStateManager) :
    Option (List EnrichedEvent × TripsStateManager) :=
  (reduce_update_event u).bind fun r =>
  match r.stop_id with
  | none => some ([], tsm)
  | some stop_id0 =>
    let prev := prev_trip_state tsm r stop_id0
    let da := arr_or_dep_event prev r.current_status r.current_stop_sequence
      r.event_type stop_id0
    let stop_id := if da.1 then prev.stop_id else stop_id0
    let written :=
      if da.1 || da.2 then
        -- `gtfs_archive`, `stop_name` (logging only) and `service_date` are
        -- computed at this point in the source
        if stop_filter_gate r.route_id stop_id then
          [enrich_event (mk_event_row r stop_id) env.archive]
        else []
      else []
    let newState : TripState :=
      ⟨r.current_stop_sequence, stop_id, r.updated_at, r.event_type,
        r.vehicle_consist, r.occupancy_status, r.occupancy_percentage⟩
    some (written,
      tsm.set_trip_state env.now env.current_service_date r.route_id r.trip_id newState)

/-! ## gtfs_rt_client.py — polling de-dup filter -/

/-- `GtfsRtClient._has_position_changed`: emit when the trip is uncached or
when one of `relationships.stop.data`, `attributes.current_status`,
`attributes.current_stop_sequence`, `attributes.occupancy_status`,
`attributes.carriages` differs from the cached entry, tested in that order. -/
def has_position_changed (prev_positions : List (String × Update)) (trip_id : String)
    (new_event : Update) : Bool :=
  match alookup prev_positions trip_id with
  | none => true
  | some prev =>
    if prev.stop_id ≠ new_event.stop_id then true
    else if prev.attributes.current_status ≠ new_event.attributes.current_status then true
    else if prev.attributes.current_stop_sequence ≠ new_event.attributes.current_stop_sequence then true
    else if prev.attributes.occupancy_status ≠ new_event.attributes.occupancy_status then true
    else if prev.attributes.carriages ≠ new_event.attributes.carriages then true
    else false

/-- The result of one iteration of `GtfsRtClient.poll_events`. -/
structure PollOutcome where
  emitted : List Update
  cache : List (String × Update)
deriving DecidableEq, Repr

/-- The entity loop of one poll: for each converted vehicle update (in feed
order, already filtered by route and successfully converted), record its
`trip_id`, yield it when `has_position_changed`, and always replace the
cached entry.  Returns the yielded events, the cache, and the accumulated
`current_trip_ids`. -/
def poll_scan (cache : List (String × Update)) (current_trip_ids : List String) :
    List Update → List Update × List (String × Update) × List String
  | [] => ([], cache, current_trip_ids)
  | e :: rest =>
    let tid := e.trip_id
    let emit := has_position_changed cache tid e
    let cache := asetEntry cache tid e
    let out := poll_scan cache (tid :: current_trip_ids) rest
    (if emit then e :: out.1 else out.1, out.2.1, out.2.2)

/-- One poll of `GtfsRtClient.poll_events`: run the entity loop, then evict
every cached `trip_id` absent from the current feed (`stale_trips`). -/
def poll_step (cache : List (String × Update)) (entities : List Update) : PollOutcome :=
  let out := poll_scan cache [] entities
  ⟨out.1, out.2.1.filter (fun p => out.2.2.contains p.1)⟩

/-! ## Concrete fixtures for the claim theorems -/

/-- An enriched event dict as `process_event` hands it to `disk.write_event`
(values already rendered as the strings the csv module would write),
carrying a multi-carriage consist and per-car occupancy columns. -/
def c1Event : List (String × Option String) := [
  ("service_date", some "2024-01-15"),
  ("route_id", some "Orange"),
  ("trip_id", some "trip_456"),
  ("direction_id", some "1"),
  ("stop_id", some "70002"),
  ("stop_sequence", some "10"),
  ("vehicle_id", some "0"),
  ("vehicle_label", some "1234"),
  ("event_type", some "ARR"),
  ("event_time", some "2024-01-15T10:30:00-05:00"),
  ("scheduled_headway", some "300"),
  ("scheduled_tt", some "120"),
  ("vehicle_consist", some "0704|0705"),
  ("occupancy_status", some "MANY_SEATS_AVAILABLE|FEW_SEATS_AVAILABLE"),
  ("occupancy_percentage", some "25|75")]

/-- A stale entry (9.5 h old at the witness's wall clock). -/
def c8StaleTs : TripState :=
  ⟨3, "70001", ⟨2024, 1, 15, 1, 0, 0, some EASTERN_TIME⟩, "ARR", "1234", none, none⟩

/-- A fresh entry (30 min old at the witness's wall clock). -/
def c8FreshTs : TripState :=
  ⟨7, "70005", ⟨2024, 1, 15, 10, 0, 0, some EASTERN_TIME⟩, "DEP", "1234", none, none⟩

/-- The entry being written in the witness. -/
def c8NewTs : TripState :=
  ⟨8, "70006", ⟨2024, 1, 15, 10, 30, 0, some EASTERN_TIME⟩, "ARR", "1234", none, none⟩

/-- The route store the witness writes into. -/
def c8Store : RouteTripsState :=
  ⟨"Red", ⟨2024, 1, 15⟩, [("stale_trip", c8StaleTs), ("fresh_trip", c8FreshTs)]⟩

/-- The witness's wall clock, 2024-01-15 10:30 Eastern. -/
def c8Now : DateTime := ⟨2024, 1, 15, 10, 30, 0, some EASTERN_TIME⟩

/-- The converted GTFS-RT update used by the C7 fixtures. -/
def c7Upd (st : String) : Update :=
  { attributes :=
      { current_status := st
        updated_at := ⟨2024, 1, 15, 10, 30, 0, some UTC_TIME⟩
        current_stop_sequence := 5
        direction_id := 0
        label := "v1"
        carriages := []
        occupancy_status := none
        occupancy_percentage := none }
    route_id := "Red"
    stop_id := some "70001"
    trip_id := "A" }

/-- A feed carrying the same `trip_id` twice with different statuses (two
vehicles reported on one trip — e.g. frequency-based service or a data
glitch). -/
def c7FeedDup : List Update := [c7Upd "IN_TRANSIT_TO", c7Upd "STOPPED_AT"]

/-- A feed with a single vehicle, for the witness. -/
def c7FeedOne : List Update := [c7Upd "IN_TRANSIT_TO"]

/-- The `(is_departure_event, is_arrival_event)` pair `process_event`
computes for a reduced update with stop `s` against the manager's stored (or
synthesised) previous state. -/
def detected (tsm : TripsStateManager) (r : ReducedEvent) (s : String) : Bool × Bool :=
  arr_or_dep_event (prev_trip_state tsm r s) r.current_status r.current_stop_sequence
    r.event_type s

/-- The `stop_id` local of `process_event` after the departure reassignment:
the prior stop on a departure, the update's own stop otherwise. -/
def attributed_stop (tsm : TripsStateManager) (r : ReducedEvent) (s : String) : String :=
  if (detected tsm r s).1 then (prev_trip_state tsm r s).stop_id else s

/-- The first-observation update for the C5 witness. -/
def c5Upd : Update :=
  { attributes :=
      { current_status := "IN_TRANSIT_TO"
        updated_at := ⟨2024, 1, 15, 10, 30, 0, some EASTERN_TIME⟩
        current_stop_sequence := 2
        direction_id := 0
        label := "1234"
        carriages := []
        occupancy_status := none
        occupancy_percentage := none }
    route_id := "Red"
    stop_id := some "70002"
    trip_id := "trip_123" }

/-- The reduction of `c5Upd`. -/
def c5Red : ReducedEvent :=
  { current_status := "IN_TRANSIT_TO"
    event_type := "DEP"
    current_stop_sequence := 2
    direction_id := 0
    route_id := "Red"
    stop_id := some "70002"
    trip_id := "trip_123"
    vehicle_label := "1234"
    updated_at := ⟨2024, 1, 15, 10, 30, 0, some EASTERN_TIME⟩
    vehicle_consist := "1234"
    occupancy_status := none
    occupancy_percentage := none }

/-- Ambient state for the concrete pipeline runs: wall clock 2024-01-15
10:30 Eastern, an empty schedule archive. -/
def pipeEnv : PipelineEnv :=
  ⟨⟨2024, 1, 15, 10, 30, 0, some EASTERN_TIME⟩, ⟨2024, 1, 15⟩,
    ⟨[], [], [("70001", "Harvard Square"), ("70002", "Central Square")], ⟨2024, 1, 15⟩⟩⟩

/-- Attributes of a fixture update at 2024-01-15 10:30 Eastern. -/
def pipeAttrs (st : String) (seq : Int) : UpdateAttributes :=
  { current_status := st
    updated_at := ⟨2024, 1, 15, 10, 30, 0, some EASTERN_TIME⟩
    current_stop_sequence := seq
    direction_id := 0
    label := "1234"
    carriages := []
    occupancy_status := none
    occupancy_percentage := none }

/-- The scenario-1 update: in transit to stop 70002 at sequence 6. -/
def c2Upd : Update := ⟨pipeAttrs "IN_TRANSIT_TO" 6, "Red", some "70002", "trip_123"⟩

/-- The stored state before `c2Upd`: arrived at 70001, sequence 5. -/
def c2Tsm : TripsStateManager :=
  ⟨[("Red", ⟨"Red", ⟨2024, 1, 15⟩,
    [("trip_123", ⟨5, "70001", ⟨2024, 1, 15, 10, 25, 0, some EASTERN_TIME⟩, "ARR",
      "1234", none, none⟩)]⟩)]⟩

/-- The arrival update for the C2 witness (scenario 2): stopped at 70001
after a departure was recorded there. -/
def c2wUpd : Update := ⟨pipeAttrs "STOPPED_AT" 5, "Red", some "70001", "trip_123"⟩

/-- Stored state before `c2wUpd`: departed 70001, sequence 5. -/
def c2wTsm : TripsStateManager :=
  ⟨[("Red", ⟨"Red", ⟨2024, 1, 15⟩,
    [("trip_123", ⟨5, "70001", ⟨2024, 1, 15, 10, 28, 0, some EASTERN_TIME⟩, "DEP",
      "1234", none, none⟩)]⟩)]⟩

/-- The reduction of `c2wUpd`. -/
def c2wRed : ReducedEvent :=
  { current_status := "STOPPED_AT"
    event_type := "ARR"
    current_stop_sequence := 5
    direction_id := 0
    route_id := "Red"
    stop_id := some "70001"
    trip_id := "trip_123"
    vehicle_label := "1234"
    updated_at := ⟨2024, 1, 15, 10, 30, 0, some EASTERN_TIME⟩
    vehicle_consist := "1234"
    occupancy_status := none
    occupancy_percentage := none }

/-- An update whose `updated_at` equals the stored entry's. -/
def c3Upd : Update := ⟨pipeAttrs "STOPPED_AT" 5, "Red", some "70001", "trip_123"⟩

/-- A store whose entry for the trip carries the same `updated_at` as
`c3Upd` (a duplicate-timestamp update). -/
def c3Tsm : TripsStateManager :=
  ⟨[("Red", ⟨"Red", ⟨2024, 1, 15⟩,
    [("trip_123", ⟨5, "70001", ⟨2024, 1, 15, 10, 30, 0, some EASTERN_TIME⟩, "DEP",
      "1234", none, none⟩)]⟩)]⟩

/-- The reduction of `c3Upd`. -/
def c3Red : ReducedEvent :=
  { current_status := "STOPPED_AT"
    event_type := "ARR"
    current_stop_sequence := 5
    direction_id := 0
    route_id := "Red"
    stop_id := some "70001"
    trip_id := "trip_123"
    vehicle_label := "1234"
    updated_at := ⟨2024, 1, 15, 10, 30, 0, some EASTERN_TIME⟩
    vehicle_consist := "1234"
    occupancy_status := none
    occupancy_percentage := none }

/-- The stop filter as the claim words it: the route is commuter rail or
rapid transit, or it is a bus route whose `BUS_STOPS` entry contains the
event's stop. -/
def stop_filter_spec (route_id : String) (stop_id : String) : Prop :=
  route_id ∈ ROUTES_CR ∨ route_id ∈ ROUTES_RAPID ∨
    (route_id ∈ ROUTES_BUS ∧ ∃ stops, alookup BUS_STOPS route_id = some stops ∧ stop_id ∈ stops)

/-- The C6 witness update: bus route 1, in transit towards stop 99 at
sequence 2 (a departure from the monitored stop 110). -/
def c6Upd : Update := ⟨pipeAttrs "IN_TRANSIT_TO" 2, "1", some "99", "bus_trip"⟩

/-- Stored state before `c6Upd`: at stop 110 (which is in `BUS_STOPS["1"]`). -/
def c6Tsm : TripsStateManager :=
  ⟨[("1", ⟨"1", ⟨2024, 1, 15⟩,
    [("bus_trip", ⟨1, "110", ⟨2024, 1, 15, 10, 25, 0, some EASTERN_TIME⟩, "ARR",
      "1234", none, none⟩)]⟩)]⟩

/-- Stored state for the rejected case: a departure from unlisted stop 98. -/
def c6Tsm2 : TripsStateManager :=
  ⟨[("1", ⟨"1", ⟨2024, 1, 15⟩,
    [("bus_trip", ⟨1, "98", ⟨2024, 1, 15, 10, 25, 0, some EASTERN_TIME⟩, "ARR",
      "1234", none, none⟩)]⟩)]⟩

/-- The reduction of `c6Upd`. -/
def c6Red : ReducedEvent :=
  { current_status := "IN_TRANSIT_TO"
    event_type := "DEP"
    current_stop_sequence := 2
    direction_id := 0
    route_id := "1"
    stop_id := some "99"
    trip_id := "bus_trip"
    vehicle_label := "1234"
    updated_at := ⟨2024, 1, 15, 10, 30, 0, some EASTERN_TIME⟩
    vehicle_consist := "1234"
    occupancy_status := none
    occupancy_percentage := none }

/-- Continuation of `consecDiffs`: seconds components of differences to the
running predecessor. -/
def consecDiffsFrom (prev : Int) : List Int → List (Option Int)
  | [] => []
  | b :: rest => some ((b - prev) % 86400) :: consecDiffsFrom b rest

/-- The reference sequence the (amended) claim names for one
`(route_id, direction_id, stop_id)` group: the first arrival has no headway;
every later one carries the seconds component (`mod 86400`) of its
difference to the previous arrival. -/
def consecDiffs : List Int → List (Option Int)
  | [] => []
  | a :: rest => none :: consecDiffsFrom a rest

/-- The tail of `annotateSched`: the travel-time column added to one scanned
pair. -/
def annotatePair (rows : List GtfsStopRow) (p : GtfsStopRow × Option Int) : SchedRow :=
  ⟨p.1, p.2, (p.1.arrival_time - tripStartTime rows p.1.trip_id) % 86400⟩

/-- C9 counterexample schedule: two trips of route 9 arriving at stop S
25 hours apart (0 s and 90000 s after midnight). -/
def c9Trips : List TripRow := [⟨"T1", "9", 0⟩, ⟨"T2", "9", 0⟩]

/-- Stop-time rows for `c9Trips`. -/
def c9Stops : List StopTimeRow :=
  [⟨"S", "T1", 0, 0, 1⟩, ⟨"S", "T2", 90000, 90000, 1⟩]

/-- The C9 counterexample event, 90000 s after midnight of its service date
(2024-01-05 01:00 Eastern on service date 2024-01-04). -/
def c9Event : HeadwayEvent :=
  { service_date := ⟨2024, 1, 4⟩
    route_id := "9"
    trip_id := "T2"
    direction_id := 0
    stop_id := "S"
    stop_sequence := 1
    vehicle_id := "0"
    vehicle_label := "v"
    event_type := "ARR"
    event_time := ⟨2024, 1, 5, 1, 0, 0, some EASTERN_TIME⟩
    vehicle_consist := "v"
    occupancy_status := none
    occupancy_percentage := none }


/-! ## Supporting lemmas -/

theorem alookup_isSome_iff_mem_keys {α : Type} (l : List (String × α)) (key : String) :
    (alookup l key).isSome ↔ key ∈ l.map Prod.fst := by
  induction l with
  | nil => simp [alookup]
  | cons p rest ih =>
    obtain ⟨k, v⟩ := p
    by_cases h : k = key
    · subst h; simp [alookup]
    · simp [alookup, h, ih, Ne.symm h]

theorem alookup_asetEntry_self {α : Type} (l : List (String × α)) (key : String) (v : α) :
    alookup (asetEntry l key v) key = some v := by
  induction l with
  | nil => simp [asetEntry, alookup]
  | cons p rest ih =>
    obtain ⟨k, w⟩ := p
    by_cases h : k = key
    · subst h; simp [asetEntry, alookup]
    · simp [asetEntry, alookup, h, ih]

theorem alookup_asetEntry_ne {α : Type} (l : List (String × α)) (key key2 : String) (v : α)
    (h : key ≠ key2) : alookup (asetEntry l key v) key2 = alookup l key2 := by
  induction l with
  | nil => simp [asetEntry, alookup, h]
  | cons p rest ih =>
    obtain ⟨k, w⟩ := p
    by_cases hk : k = key
    · subst hk; simp [asetEntry, alookup, h]
    · simp [asetEntry, alookup, hk, ih]

theorem alookup_eq_none_of_not_mem_keys {α : Type} (l : List (String × α)) (key : String)
    (h : key ∉ l.map Prod.fst) : alookup l key = none := by
  cases halk : alookup l key with
  | none => rfl
  | some v =>
    exact absurd ((alookup_isSome_iff_mem_keys l key).mp (by simp [halk])) h

theorem alookup_filter_key {α : Type} (l : List (String × α)) (q : String → Bool)
    (key : String) :
    alookup (l.filter (fun p => q p.1)) key =
      (if q key then alookup l key else none) := by
  induction l with
  | nil => simp [alookup]
  | cons p rest ih =>
    obtain ⟨k, v⟩ := p
    by_cases hk : k = key
    · subst hk
      by_cases hq : q k
      · simp [alookup, hq, List.filter]
      · simpa [alookup, hq, List.filter, Bool.not_eq_true] using ih
    · by_cases hq : q k
      · simpa [alookup, hq, hk, List.filter] using ih
      · simpa [alookup, hq, hk, List.filter, Bool.not_eq_true] using ih

theorem alookup_cons {α : Type} (k : String) (v : α) (rest : List (String × α))
    (key : String) :
    alookup ((k, v) :: rest) key = if k = key then some v else alookup rest key := rfl

theorem alookup_stale_filter (cutoff : Int) (l : List (String × TripState))
    (key : String) (hnd : (l.map Prod.fst).Nodup) :
    alookup (l.filter (fun p => ¬ (p.2.updated_at.toEpoch < cutoff))) key =
      (alookup l key).bind (fun old =>
        if old.updated_at.toEpoch < cutoff then none else some old) := by
  induction l with
  | nil => rfl
  | cons p rest ih =>
    obtain ⟨k, v⟩ := p
    simp only [List.map_cons, List.nodup_cons] at hnd
    simp only [List.filter_cons]
    by_cases hq : v.updated_at.toEpoch < cutoff
    · have hpred : (decide ¬ (((k, v).2.updated_at.toEpoch < cutoff))) = false := by
        simp [hq]
      rw [hpred]
      simp only [Bool.false_eq_true, if_false]
      by_cases hk : k = key
      · subst hk
        have hnone : alookup (rest.filter
            (fun p => ¬ (p.2.updated_at.toEpoch < cutoff))) k = none := by
          refine alookup_eq_none_of_not_mem_keys _ _ (fun hmem => hnd.1 ?_)
          obtain ⟨⟨k2, v2⟩, hmem2, hk2⟩ := List.mem_map.mp hmem
          exact hk2 ▸ List.mem_map_of_mem Prod.fst (List.mem_of_mem_filter hmem2)
        rw [hnone, alookup_cons, if_pos rfl]
        simp [hq]
      · rw [alookup_cons, if_neg hk]
        exact ih hnd.2
    · have hpred : (decide ¬ (((k, v).2.updated_at.toEpoch < cutoff))) = true := by
        simp [hq]
      rw [hpred]
      simp only [if_true]
      by_cases hk : k = key
      · subst hk
        rw [alookup_cons, alookup_cons, if_pos rfl, if_pos rfl]
        simp [hq]
      · rw [alookup_cons, alookup_cons, if_neg hk, if_neg hk]
        exact ih hnd.2

theorem filter_map_comm {α β : Type} (f : α → β) (p : β → Bool) (l : List α) :
    (l.map f).filter p = (l.filter (fun a => p (f a))).map f := by
  induction l with
  | nil => rfl
  | cons a rest ih =>
    by_cases h : p (f a) <;> simp [List.filter, h, ih]

theorem le_getLast?_of_pairwise {α : Type} (f : α → Int) (l : List α)
    (hs : List.Pairwise (fun a b => f a ≤ f b) l) (m : α) (hm : l.getLast? = some m) :
    ∀ x ∈ l, f x ≤ f m := by
  induction l with
  | nil => simp at hm
  | cons a rest ih =>
    cases rest with
    | nil =>
      simp at hm
      subst hm
      intro x hx
      simp at hx
      subst hx
      exact le_refl _
    | cons b rest2 =>
      have hm2 : (b :: rest2).getLast? = some m := by
        simpa [List.getLast?] using hm
      have hs2 := List.Pairwise.sublist (List.sublist_cons_self a (b :: rest2)) hs
      intro x hx
      rcases List.mem_cons.mp hx with hxa | hxrest
      · subst hxa
        exact (List.pairwise_cons.mp hs).1 m (List.mem_of_mem_getLast? hm2)
      · exact ih hs2 hm2 x hxrest

theorem getLast?_filter_max {α : Type} (f : α → Int) (p : α → Bool) (l : List α)
    (hs : List.Pairwise (fun a b => f a ≤ f b) l) (m : α)
    (h : (l.filter p).getLast? = some m) :
    p m = true ∧ ∀ x ∈ l, p x = true → f x ≤ f m := by
  have hsf : List.Pairwise (fun a b => f a ≤ f b) (l.filter p) :=
    List.Pairwise.sublist (List.filter_sublist l) hs
  have hmem : m ∈ l.filter p := List.mem_of_mem_getLast? h
  refine ⟨(List.mem_filter.mp hmem).2, fun x hx hpx => ?_⟩
  exact le_getLast?_of_pairwise f (l.filter p) hsf m h x (List.mem_filter.mpr ⟨hx, hpx⟩)

/-! ## Claim theorems -/

/-- C1: the claim states every CSV row follows the 15-column schema ending in
`vehicle_consist, occupancy_status, occupancy_percentage` and that
`write_event` records those fields.  The source's `CSV_FIELDS` has only 12
columns; `extrasaction="ignore"` drops the three trailing fields, so neither
the header nor any data row contains them — contradicting the spec and the
repository's own `test_disk.py::test_csv_fields_contains_expected_fields`
(which asserts the 15-column list).  This theorem evaluates the writer at a
concrete event carrying all three fields. -/
theorem c1_csv_schema_drops_consist_columns :
    CSV_FIELDS ≠ CSV_FIELDS_spec ∧
    CSV_FIELDS.length = 12 ∧
    "vehicle_consist" ∉ CSV_FIELDS ∧
    "occupancy_status" ∉ CSV_FIELDS ∧
    "occupancy_percentage" ∉ CSV_FIELDS ∧
    write_event none c1Event =
      [CSV_FIELDS,
        ["2024-01-15", "Orange", "trip_456", "1", "70002", "10", "0", "1234", "ARR",
          "2024-01-15T10:30:00-05:00", "300", "120"]] ∧
    ¬ (writeRow c1Event).contains "0704|0705" := by
  decide

/-- C4: for a timestamp with a valid hour, `service_date` returns the
calendar date when the hour is at least 3, and the calendar date of the
timestamp minus 24 hours (the previous calendar day) when the hour is below
3; in particular exactly 3:00 AM maps to its own calendar date. -/
theorem c4_service_date_boundary (ts : DateTime) (h : ts.hour < 24) :
    (3 ≤ ts.hour → service_date ts = ts.calendarDate) ∧
    (ts.hour < 3 → service_date ts = ts.subOneDay.calendarDate) ∧
    (ts.hour = 3 → service_date ts = ts.calendarDate) := by
  refine ⟨fun h3 => ?_, fun h3 => ?_, fun h3 => ?_⟩
  · simp [service_date, DateTime.calendarDate, h3, Nat.lt_succ_iff.mp h]
  · simp [service_date, DateTime.calendarDate, DateTime.subOneDay, Nat.not_le.mpr h3]
  · simp [service_date, DateTime.calendarDate, h3, Nat.lt_succ_iff.mp h]

/-- C4 witness: 2024-01-01 03:00 is on the boundary and keeps its own
calendar date; 2024-01-01 02:59 rolls back to 2023-12-31. -/
theorem c4_service_date_boundary_witness :
    service_date ⟨2024, 1, 1, 3, 0, 0, none⟩ = ⟨2024, 1, 1⟩ ∧
    service_date ⟨2024, 1, 1, 2, 59, 0, none⟩ = ⟨2023, 12, 31⟩ := by
  constructor
  · exact (c4_service_date_boundary ⟨2024, 1, 1, 3, 0, 0, none⟩ (by decide)).2.2 rfl
  · exact (c4_service_date_boundary ⟨2024, 1, 1, 2, 59, 0, none⟩ (by decide)).2.1 (by decide)

/-- C10: `service_date` replaces `tzinfo` with Eastern instead of converting,
so any two timestamps with identical naive fields but different `tzinfo`
(e.g. one UTC, one Eastern) get the same service date — a UTC timestamp is
not converted to Eastern local time before the 3 AM boundary test. -/
theorem c10_service_date_ignores_tzinfo (ts : DateTime) (tz1 tz2 : Option Tz) :
    service_date { ts with tz := tz1 } = service_date { ts with tz := tz2 } ∧
    service_date { ts with tz := some UTC_TIME } =
      service_date { ts with tz := some EASTERN_TIME } := by
  exact ⟨rfl, rfl⟩

/-- C8: every `set_trip_state` first drops entries older than 5 hours, then —
when the stored service date is older than the current one — drops all
entries and adopts the new date, all before the new entry is inserted and
the state is persisted; `get_trip_state` never evicts or mutates.  The
`Nodup` hypothesis is the dict representation invariant (association-list
keys are unique). -/
theorem c8_eviction_runs_only_on_write (now : DateTime) (sd : Date) (s : RouteTripsState)
    (trip_id : String) (ts : TripState) (hnd : (s.trips.map Prod.fst).Nodup) :
    (alookup (set_trip_state now sd s trip_id ts).1.trips trip_id = some ts) ∧
    (∀ tid, tid ≠ trip_id →
      alookup (set_trip_state now sd s trip_id ts).1.trips tid =
        (if s.service_date.ltb sd then none
         else (alookup s.trips tid).bind (fun old =>
           if old.updated_at.toEpoch < now.toEpoch - 5 * 3600 then none else some old))) ∧
    ((set_trip_state now sd s trip_id ts).1.service_date =
      (if s.service_date.ltb sd then sd else s.service_date)) ∧
    ((set_trip_state now sd s trip_id ts).2 = (set_trip_state now sd s trip_id ts).1) ∧
    (∀ tid, get_trip_state s tid = (alookup s.trips tid, s)) := by
  refine ⟨?_, ?_, ?_, rfl, fun tid => rfl⟩
  · simp [set_trip_state, alookup_asetEntry_self]
  · intro tid htid
    rw [set_trip_state]
    simp only
    rw [alookup_asetEntry_ne _ _ _ _ (fun h => htid h.symm)]
    rw [cleanup_trip_states, purge_trips_state_if_overnight, cleanup_stale_trip_states]
    by_cases hroll : (cleanup_stale_trip_states now 5 s).service_date.ltb sd
    · have hroll2 : s.service_date.ltb sd = true := hroll
      simp [cleanup_stale_trip_states] at hroll ⊢
      simp [hroll2, alookup]
    · have hroll2 : s.service_date.ltb sd = false := by
        simpa [cleanup_stale_trip_states] using hroll
      simp only [cleanup_stale_trip_states, hroll, if_false, hroll2, Bool.false_eq_true]
      rw [alookup_stale_filter (now.toEpoch - ((5 : Nat) : Int) * 3600) s.trips tid hnd]
      norm_num
  · rw [set_trip_state]
    simp only
    rw [cleanup_trip_states, purge_trips_state_if_overnight]
    by_cases hroll : (cleanup_stale_trip_states now 5 s).service_date.ltb sd
    · have hroll2 : s.service_date.ltb sd = true := hroll
      simp [hroll, hroll2]
    · have hroll2 : s.service_date.ltb sd = false := by
        simpa [cleanup_stale_trip_states] using hroll
      simp [hroll, hroll2, cleanup_stale_trip_states]

/-- C8 witness: writing `t9` at 10:30 drops the 9.5-hour-old entry, keeps the
fresh one, and inserts the new entry. -/
theorem c8_eviction_runs_only_on_write_witness :
    alookup (set_trip_state c8Now ⟨2024, 1, 15⟩ c8Store "t9" c8NewTs).1.trips "t9" =
        some c8NewTs ∧
    alookup (set_trip_state c8Now ⟨2024, 1, 15⟩ c8Store "t9" c8NewTs).1.trips "stale_trip" =
        none ∧
    alookup (set_trip_state c8Now ⟨2024, 1, 15⟩ c8Store "t9" c8NewTs).1.trips "fresh_trip" =
        some c8FreshTs := by
  have h := c8_eviction_runs_only_on_write c8Now ⟨2024, 1, 15⟩ c8Store "t9" c8NewTs
    (by decide)
  refine ⟨h.1, ?_, ?_⟩
  · rw [h.2.1 "stale_trip" (by decide)]
    decide
  · rw [h.2.1 "fresh_trip" (by decide)]
    decide

theorem alookup_filter_contains {α : Type} (l : List (String × α)) (keys : List String)
    (key : String) :
    alookup (l.filter (fun p => keys.contains p.1)) key =
      if keys.contains key then alookup l key else none := by
  induction l with
  | nil => simp [alookup]
  | cons p rest ih =>
    obtain ⟨k, v⟩ := p
    simp only [List.filter_cons]
    by_cases hk : k = key
    · subst hk
      by_cases hc : keys.contains k
      · rw [hc]; simp only [if_true, alookup_cons, if_pos rfl, hc]
      · simp only [Bool.not_eq_true] at hc
        rw [hc]
        simp only [Bool.false_eq_true, if_false, ih, hc]
    · by_cases hc : keys.contains k
      · rw [hc]; simp only [if_true, alookup_cons, if_neg hk, ih]
      · simp only [Bool.not_eq_true] at hc
        rw [hc]
        simp only [Bool.false_eq_true, if_false, ih, alookup_cons, if_neg hk]

theorem poll_scan_current_ids (entities : List Update) (cache : List (String × Update))
    (cur : List String) :
    (poll_scan cache cur entities).2.2 = entities.reverse.map Update.trip_id ++ cur := by
  induction entities generalizing cache cur with
  | nil => simp [poll_scan]
  | cons e rest ih =>
    simp [poll_scan, ih]

theorem poll_scan_cache_untouched (entities : List Update) (cache : List (String × Update))
    (cur : List String) (tid : String) (h : tid ∉ entities.map Update.trip_id) :
    alookup (poll_scan cache cur entities).2.1 tid = alookup cache tid := by
  induction entities generalizing cache cur with
  | nil => rfl
  | cons e rest ih =>
    simp only [List.map_cons, List.mem_cons, not_or] at h
    rw [poll_scan]
    simp only
    rw [ih _ _ h.2, alookup_asetEntry_ne _ _ _ _ (fun he => h.1 he.symm)]

theorem poll_scan_cache_lookup (entities : List Update) (cache : List (String × Update))
    (cur : List String) (hnd : (entities.map Update.trip_id).Nodup) :
    ∀ e ∈ entities, alookup (poll_scan cache cur entities).2.1 e.trip_id = some e := by
  induction entities generalizing cache cur with
  | nil => intro e he; simp at he
  | cons e0 rest ih =>
    simp only [List.map_cons, List.nodup_cons] at hnd
    intro e he
    rcases List.mem_cons.mp he with heq | hrest
    · subst heq
      rw [poll_scan]
      simp only
      rw [poll_scan_cache_untouched rest _ _ _ hnd.1, alookup_asetEntry_self]
    · exact ih _ _ hnd.2 e hrest

theorem has_position_changed_self (cache : List (String × Update)) (tid : String)
    (e : Update) (h : alookup cache tid = some e) :
    has_position_changed cache tid e = false := by
  simp [has_position_changed, h]

theorem poll_scan_no_changes (entities : List Update) (cache : List (String × Update))
    (cur : List String) (h : ∀ e ∈ entities, alookup cache e.trip_id = some e) :
    (poll_scan cache cur entities).1 = [] := by
  induction entities generalizing cache cur with
  | nil => rfl
  | cons e0 rest ih =>
    rw [poll_scan]
    simp only [has_position_changed_self cache e0.trip_id e0 (h e0 (by simp)),
      Bool.false_eq_true, if_false]
    refine ih _ _ (fun e he => ?_)
    by_cases heq : e0.trip_id = e.trip_id
    · have h1 := h e (List.mem_cons_of_mem _ he)
      have h2 := h e0 (by simp)
      rw [heq] at h2
      rw [h1] at h2
      rw [← heq, alookup_asetEntry_self]
      exact congrArg some (Option.some.inj h2).symm
    · rw [alookup_asetEntry_ne _ _ _ _ heq]
      exact h e (List.mem_cons_of_mem _ he)

/-- C7 (amended): a polled update is emitted iff no cached entry exists for
its `trip_id` or one of the five compared fields differs from the cached
entry, tested in order `stop`, `current_status`, `current_stop_sequence`,
`occupancy_status`, `carriages`; after each poll every cached `trip_id`
absent from the current feed is evicted; and — provided no `trip_id` appears
twice within one poll — a second, identical poll emits nothing. -/
theorem c7_dedup_filter (cache : List (String × Update)) (entities : List Update)
    (hnd : (entities.map Update.trip_id).Nodup) :
    (∀ (tid : String) (e : Update),
      has_position_changed cache tid e = true ↔
        (alookup cache tid = none ∨
          ∃ prev, alookup cache tid = some prev ∧
            (prev.stop_id ≠ e.stop_id ∨
             prev.attributes.current_status ≠ e.attributes.current_status ∨
             prev.attributes.current_stop_sequence ≠ e.attributes.current_stop_sequence ∨
             prev.attributes.occupancy_status ≠ e.attributes.occupancy_status ∨
             prev.attributes.carriages ≠ e.attributes.carriages))) ∧
    (∀ tid, (alookup (poll_step cache entities).cache tid).isSome →
        tid ∈ entities.map Update.trip_id) ∧
    (poll_step (poll_step cache entities).cache entities).emitted = [] := by
  refine ⟨fun tid e => ?_, fun tid hsome => ?_, ?_⟩
  · cases h : alookup cache tid with
    | none => simp [has_position_changed, h]
    | some prev =>
      simp only [has_position_changed, h]
      split_ifs with h1 h2 h3 h4 h5 <;> simp_all
  · rw [poll_step] at hsome
    simp only at hsome
    rw [alookup_filter_contains] at hsome
    by_cases hc : (poll_scan cache [] entities).2.2.contains tid
    · have : tid ∈ (poll_scan cache [] entities).2.2 := by
        simpa using hc
      rw [poll_scan_current_ids] at this
      simpa using this
    · simp only [Bool.not_eq_true] at hc
      rw [hc] at hsome
      simp at hsome
  · rw [poll_step, poll_step]
    simp only
    refine poll_scan_no_changes entities _ [] (fun e he => ?_)
    rw [alookup_filter_contains]
    have hmem : e.trip_id ∈ (poll_scan cache [] entities).2.2 := by
      rw [poll_scan_current_ids]
      simp only [List.mem_append]
      exact Or.inl (List.mem_map_of_mem Update.trip_id (List.mem_reverse.mpr he))
    have hc : (poll_scan cache [] entities).2.2.contains e.trip_id = true := by
      simpa using hmem
    rw [hc]
    simp only [if_true]
    exact poll_scan_cache_lookup entities cache [] hnd e he

/-- C7 counterexample: the claim concludes that two identical successive
polls yield events only on the first.  With a `trip_id` duplicated inside
one feed, the second identical poll emits again (each update differs from
the then-current cached entry), so the claim as stated is false. -/
theorem c7_dedup_filter_counterexample :
    c7FeedDup.map Update.trip_id = ["A", "A"] ∧
    (poll_step [] c7FeedDup).emitted.length = 2 ∧
    (poll_step (poll_step [] c7FeedDup).cache c7FeedDup).emitted.length = 2 := by
  decide

/-- C7 witness: on a duplicate-free feed the second identical poll emits
nothing. -/
theorem c7_dedup_filter_witness :
    (poll_step (poll_step [] c7FeedOne).cache c7FeedOne).emitted = [] :=
  (c7_dedup_filter [] c7FeedOne (by decide)).2.2

theorem reduce_update_event_fields (u : Update) (r : ReducedEvent)
    (h : reduce_update_event u = some r) :
    r.current_status = u.attributes.current_status ∧
    alookup EVENT_TYPE_MAP u.attributes.current_status = some r.event_type ∧
    r.current_stop_sequence = u.attributes.current_stop_sequence ∧
    r.route_id = u.route_id ∧
    r.stop_id = u.stop_id ∧
    r.trip_id = u.trip_id ∧
    r.updated_at = u.attributes.updated_at := by
  rw [reduce_update_event] at h
  cases het : alookup EVENT_TYPE_MAP u.attributes.current_status with
  | none => rw [het] at h; simp at h
  | some et =>
    rw [het] at h
    simp only [Option.some_bind] at h
    cases hco : reduce_consist u.attributes with
    | none => rw [hco] at h; simp at h
    | some co =>
      rw [hco] at h
      simp only [Option.map_some', Option.some.injEq] at h
      obtain rfl := h.symm
      exact ⟨rfl, rfl, rfl, rfl, rfl, rfl, rfl⟩

theorem manager_get_set_self (now : DateTime) (sd : Date) (m : TripsStateManager)
    (route trip : String) (ts : TripState) :
    (m.set_trip_state now sd route trip ts).get_trip_state route trip = some ts := by
  cases h : alookup m.route_states route <;>
    simp [TripsStateManager.set_trip_state, TripsStateManager.get_trip_state, h,
      Gobble.set_trip_state, Gobble.get_trip_state, alookup_asetEntry_self]

theorem process_event_eq (env : PipelineEnv) (u : Update) (tsm : TripsStateManager)
    (r : ReducedEvent) (s : String)
    (h1 : reduce_update_event u = some r) (h2 : r.stop_id = some s) :
    process_event env u tsm = some
      ((if ((detected tsm r s).1 || (detected tsm r s).2) then
          (if stop_filter_gate r.route_id (attributed_stop tsm r s) then
            [enrich_event (mk_event_row r (attributed_stop tsm r s)) env.archive]
          else [])
        else []),
        tsm.set_trip_state env.now env.current_service_date r.route_id r.trip_id
          ⟨r.current_stop_sequence, attributed_stop tsm r s, r.updated_at, r.event_type,
            r.vehicle_consist, r.occupancy_status, r.occupancy_percentage⟩) := by
  rw [process_event, h1]
  simp only [Option.some_bind]
  rw [h2]
  rfl

theorem enrich_event_stop_id (row : HeadwayEvent) (archive : GtfsArchive) :
    (enrich_event row archive).event.stop_id = row.stop_id := rfl

/-- C5: when the trip-state store has no entry for the update's
`(route_id, trip_id)` — the previous state is synthesised from the update
itself — `process_event` emits no event and writes no CSV row; it only sets
the stored trip state. -/
theorem c5_first_observation (env : PipelineEnv) (u : Update) (tsm : TripsStateManager)
    (r : ReducedEvent) (s : String)
    (h1 : reduce_update_event u = some r) (h2 : r.stop_id = some s)
    (h3 : tsm.get_trip_state r.route_id r.trip_id = none) :
    process_event env u tsm = some ([],
      tsm.set_trip_state env.now env.current_service_date r.route_id r.trip_id
        ⟨r.current_stop_sequence, s, r.updated_at, r.event_type, r.vehicle_consist,
          r.occupancy_status, r.occupancy_percentage⟩) := by
  obtain ⟨hcs, het, _, _, _, _, _⟩ := reduce_update_event_fields u r h1
  have hprev : prev_trip_state tsm r s =
      ⟨r.current_stop_sequence, s, r.updated_at, r.event_type⟩ := by
    rw [prev_trip_state, h3]
  have hdep : (detected tsm r s).1 = false := by
    rw [detected, hprev, arr_or_dep_event]
    simp
  have harr : (detected tsm r s).2 = false := by
    rw [detected, hprev, arr_or_dep_event]
    simp only
    by_cases hst : r.current_status = "STOPPED_AT"
    · rw [← hcs, hst] at het
      have : r.event_type = "ARR" := by
        have : some "ARR" = some r.event_type := het
        exact (Option.some.inj this).symm
      simp [this]
    · simp [hst]
  rw [process_event_eq env u tsm r s h1 h2]
  rw [attributed_stop, hdep, harr]
  simp

/-- C5 witness: on an empty manager the update writes no row and only seeds
the state. -/
theorem c5_first_observation_witness :
    (⟨[]⟩ : TripsStateManager).get_trip_state "Red" "trip_123" = none ∧
    (process_event
        ⟨⟨2024, 1, 15, 10, 30, 0, some EASTERN_TIME⟩, ⟨2024, 1, 15⟩, ⟨[], [], [], ⟨2024, 1, 15⟩⟩⟩
        c5Upd ⟨[]⟩).map Prod.fst = some [] := by
  have h := c5_first_observation
    ⟨⟨2024, 1, 15, 10, 30, 0, some EASTERN_TIME⟩, ⟨2024, 1, 15⟩, ⟨[], [], [], ⟨2024, 1, 15⟩⟩⟩
    c5Upd ⟨[]⟩ c5Red "70002" (by decide) rfl rfl
  exact ⟨rfl, by rw [h]; rfl⟩

/-- C2 counterexample: the claim says that on a departure only the emitted
row uses the prior `stop_id` while the stored state records the update's own
stop.  Processing `c2Upd` (a departure from 70001 towards 70002) leaves the
stored `stop_id` at `"70001"`, the prior stop — not the update's `"70002"`
(the repository's own test_event.py notes this: the reassignment "affects
both the event written AND the trip state update"). -/
theorem c2_counterexample_stored_stop_is_prior :
    c2Upd.stop_id = some "70002" ∧
    (process_event pipeEnv c2Upd c2Tsm).map
        (fun res => (res.2.get_trip_state "Red" "trip_123").map (fun t => t.stop_id)) =
      some (some "70001") ∧
    ("70001" : String) ≠ "70002" := by
  refine ⟨rfl, ?_, by decide⟩
  decide

/-- C2 (amended): after any processed update the stored entry has the
update's `stop_sequence` and `updated_at`, and its `stop_id` — like the
emitted row's — is the prior stop on a departure and the update's own stop
otherwise. -/
theorem c2_state_after_update (env : PipelineEnv) (u : Update) (tsm : TripsStateManager)
    (r : ReducedEvent) (s : String)
    (h1 : reduce_update_event u = some r) (h2 : r.stop_id = some s) :
    ((process_event env u tsm).map
        (fun res => res.2.get_trip_state r.route_id r.trip_id) =
      some (some
        ⟨r.current_stop_sequence, attributed_stop tsm r s, r.updated_at, r.event_type,
          r.vehicle_consist, r.occupancy_status, r.occupancy_percentage⟩)) ∧
    (∀ w tsm2, process_event env u tsm = some (w, tsm2) →
      ∀ ev ∈ w, ev.event.stop_id = attributed_stop tsm r s) := by
  rw [process_event_eq env u tsm r s h1 h2]
  constructor
  · simp only [Option.map_some']
    rw [manager_get_set_self]
  · intro w tsm2 heq ev hev
    obtain ⟨hw, _⟩ := Prod.mk.injEq .. ▸ Option.some.inj heq
    subst hw
    by_cases hda : ((detected tsm r s).1 || (detected tsm r s).2)
    · rw [if_pos hda] at hev
      by_cases hg : stop_filter_gate r.route_id (attributed_stop tsm r s)
      · rw [if_pos hg] at hev
        simp only [List.mem_singleton] at hev
        subst hev
        exact enrich_event_stop_id _ _
      · rw [if_neg hg] at hev
        simp at hev
    · rw [if_neg hda] at hev
      simp at hev

/-- C2 witness: for the arrival `c2wUpd` (no departure), the stored entry
carries the update's own stop, sequence and timestamp. -/
theorem c2_state_after_update_witness :
    (process_event pipeEnv c2wUpd c2wTsm).map
        (fun res => res.2.get_trip_state "Red" "trip_123") =
      some (some ⟨5, "70001", ⟨2024, 1, 15, 10, 30, 0, some EASTERN_TIME⟩, "ARR",
        "1234", none, none⟩) :=
  ((c2_state_after_update pipeEnv c2wUpd c2wTsm c2wRed "70001"
    (by decide) rfl).1).trans (by decide)

/-- C3 counterexample: the claim says an update whose `updated_at` equals
the stored entry's is suppressed entirely (no event, state unchanged).
`process_event` has no such filter: this duplicate-timestamp update emits an
ARR event and overwrites the stored state. -/
theorem c3_counterexample_duplicate_not_suppressed :
    (c3Tsm.get_trip_state "Red" "trip_123").map (fun t => t.updated_at) =
      some c3Upd.attributes.updated_at ∧
    (process_event pipeEnv c3Upd c3Tsm).map (fun res => res.1.length) = some 1 ∧
    (process_event pipeEnv c3Upd c3Tsm).map
        (fun res => res.2.get_trip_state "Red" "trip_123") ≠
      some (c3Tsm.get_trip_state "Red" "trip_123") := by
  refine ⟨rfl, ?_, ?_⟩ <;> decide

/-- C3 (amended): `process_event` applies no duplicate-timestamp filter.
Even when the update's `updated_at` equals the stored entry's, the update is
processed like any other: the stored state is overwritten with the state
derived from the update, and an event is emitted exactly when detection and
the stop filter pass. -/
theorem c3_duplicate_timestamp_processed (env : PipelineEnv) (u : Update)
    (tsm : TripsStateManager) (r : ReducedEvent) (s : String) (ts0 : TripState)
    (h1 : reduce_update_event u = some r) (h2 : r.stop_id = some s)
    (h3 : tsm.get_trip_state r.route_id r.trip_id = some ts0)
    (h4 : ts0.updated_at = r.updated_at) :
    process_event env u tsm = some
      ((if ((detected tsm r s).1 || (detected tsm r s).2) then
          (if stop_filter_gate r.route_id (attributed_stop tsm r s) then
            [enrich_event (mk_event_row r (attributed_stop tsm r s)) env.archive]
          else [])
        else []),
        tsm.set_trip_state env.now env.current_service_date r.route_id r.trip_id
          ⟨r.current_stop_sequence, attributed_stop tsm r s, r.updated_at, r.event_type,
            r.vehicle_consist, r.occupancy_status, r.occupancy_percentage⟩) :=
  process_event_eq env u tsm r s h1 h2

/-- C3 witness: the duplicate-timestamp fixture satisfies the hypotheses and
is processed (one event emitted). -/
theorem c3_duplicate_timestamp_processed_witness :
    (process_event pipeEnv c3Upd c3Tsm).map (fun res => res.1.map (fun ev => ev.event.event_type)) =
      some ["ARR"] := by
  have h := c3_duplicate_timestamp_processed pipeEnv c3Upd c3Tsm c3Red "70001"
    ⟨5, "70001", ⟨2024, 1, 15, 10, 30, 0, some EASTERN_TIME⟩, "DEP", "1234", none, none⟩
    (by decide) rfl rfl rfl
  rw [h]
  decide

theorem stop_filter_gate_iff_spec (route_id stop_id : String) :
    stop_filter_gate route_id stop_id = true ↔ stop_filter_spec route_id stop_id := by
  rw [stop_filter_gate, stop_filter_spec]
  cases hbl : alookup BUS_STOPS route_id with
  | none =>
    have hbus : route_id ∉ ROUTES_BUS := by
      rw [ROUTES_BUS]
      intro hmem
      have := (alookup_isSome_iff_mem_keys BUS_STOPS route_id).mpr hmem
      rw [hbl] at this
      simp at this
    simp [hbl, hbus, List.elem_iff, List.mem_append, or_assoc]
  | some stops =>
    have hbus : route_id ∈ ROUTES_BUS := by
      rw [ROUTES_BUS]
      exact (alookup_isSome_iff_mem_keys BUS_STOPS route_id).mp (by simp [hbl])
    simp [hbl, hbus, List.elem_iff, List.mem_append, or_assoc]

/-- C6: a detected event is written exactly when the stop filter passes on
the attributed stop — the gate sits after event detection and guards both
enrichment and the disk write; the code's gate is equivalent to the claim's
`route ∈ CR ∪ RAPID ∨ (route ∈ ROUTES_BUS ∧ stop ∈ BUS_STOPS[route])`; and a
route that is neither CR nor rapid and has no `BUS_STOPS` entry never has a
row written. -/
theorem c6_stop_filter_gates_write (env : PipelineEnv) (u : Update)
    (tsm : TripsStateManager) (r : ReducedEvent) (s : String)
    (h1 : reduce_update_event u = some r) (h2 : r.stop_id = some s) :
    ((process_event env u tsm).map Prod.fst =
      some (if ((detected tsm r s).1 || (detected tsm r s).2) &&
              stop_filter_gate r.route_id (attributed_stop tsm r s) then
          [enrich_event (mk_event_row r (attributed_stop tsm r s)) env.archive]
        else [])) ∧
    (∀ route stop : String,
      stop_filter_gate route stop = true ↔ stop_filter_spec route stop) ∧
    (alookup BUS_STOPS r.route_id = none → r.route_id ∉ ROUTES_CR →
      r.route_id ∉ ROUTES_RAPID →
      (process_event env u tsm).map Prod.fst = some []) := by
  have hmain : (process_event env u tsm).map Prod.fst =
      some (if ((detected tsm r s).1 || (detected tsm r s).2) &&
              stop_filter_gate r.route_id (attributed_stop tsm r s) then
          [enrich_event (mk_event_row r (attributed_stop tsm r s)) env.archive]
        else []) := by
    rw [process_event_eq env u tsm r s h1 h2]
    simp only [Option.map_some']
    congr 1
    by_cases hda : ((detected tsm r s).1 || (detected tsm r s).2) <;>
      by_cases hg : stop_filter_gate r.route_id (attributed_stop tsm r s) <;>
      simp [hda, hg]
  refine ⟨hmain, stop_filter_gate_iff_spec, fun hbl hcr hrapid => ?_⟩
  rw [hmain]
  have hg : stop_filter_gate r.route_id (attributed_stop tsm r s) = false := by
    rw [stop_filter_gate, hbl]
    simp [List.elem_iff, List.mem_append, hcr, hrapid]
  rw [hg]
  simp

/-- C6 witness: the departure from monitored stop 110 is written (one row);
the same departure from unlisted stop 98 is not. -/
theorem c6_stop_filter_gates_write_witness :
    ((process_event pipeEnv c6Upd c6Tsm).map Prod.fst).map List.length = some 1 ∧
    (process_event pipeEnv c6Upd c6Tsm2).map Prod.fst = some [] := by
  have h1 := c6_stop_filter_gates_write pipeEnv c6Upd c6Tsm c6Red "99" (by decide) rfl
  have h2 := c6_stop_filter_gates_write pipeEnv c6Upd c6Tsm2 c6Red "99" (by decide) rfl
  constructor
  · rw [h1.1]
    decide
  · rw [h2.1]
    decide

theorem mem_insertByArrival (r x : GtfsStopRow) (l : List GtfsStopRow) :
    x ∈ insertByArrival r l ↔ x = r ∨ x ∈ l := by
  induction l with
  | nil => simp [insertByArrival]
  | cons s rest ih =>
    rw [insertByArrival]
    by_cases hlt : r.arrival_time < s.arrival_time
    · rw [if_pos hlt]
      simp
    · rw [if_neg hlt]
      simp [ih]
      tauto

theorem pairwise_insertByArrival (r : GtfsStopRow) (l : List GtfsStopRow)
    (h : List.Pairwise (fun a b => a.arrival_time ≤ b.arrival_time) l) :
    List.Pairwise (fun a b => a.arrival_time ≤ b.arrival_time) (insertByArrival r l) := by
  induction l with
  | nil => simp [insertByArrival]
  | cons s rest ih =>
    rw [insertByArrival]
    obtain ⟨hs, hrest⟩ := List.pairwise_cons.mp h
    by_cases hlt : r.arrival_time < s.arrival_time
    · rw [if_pos hlt]
      refine List.pairwise_cons.mpr ⟨?_, h⟩
      intro x hx
      rcases List.mem_cons.mp hx with rfl | hxr
      · exact le_of_lt hlt
      · exact le_trans (le_of_lt hlt) (hs x hxr)
    · rw [if_neg hlt]
      refine List.pairwise_cons.mpr ⟨?_, ih hrest⟩
      intro x hx
      rcases (mem_insertByArrival r x rest).mp hx with rfl | hxr
      · exact le_of_not_lt hlt
      · exact hs x hxr

theorem sortByArrival_pairwise (l : List GtfsStopRow) :
    List.Pairwise (fun a b => a.arrival_time ≤ b.arrival_time) (sortByArrival l) := by
  induction l with
  | nil => simp [sortByArrival]
  | cons r rest ih => exact pairwise_insertByArrival r _ ih

theorem headwayScan_map_fst (rows : List GtfsStopRow) (seen : List GtfsStopRow) :
    (headwayScan seen rows).map Prod.fst = rows := by
  induction rows generalizing seen with
  | nil => rfl
  | cons r rest ih => simp [headwayScan, ih]

theorem headwayScan_filter_key (k : String × Nat × String) (rows : List GtfsStopRow)
    (seen : List GtfsStopRow) :
    ((headwayScan seen rows).filter (fun p => rowKey p.1 == k)).map (fun p => p.2)
      = (match (seen.filter (fun p => rowKey p == k)).head? with
         | none =>
           consecDiffs ((rows.filter (fun q => rowKey q == k)).map (fun q => q.arrival_time))
         | some p0 =>
           consecDiffsFrom p0.arrival_time
             ((rows.filter (fun q => rowKey q == k)).map (fun q => q.arrival_time))) := by
  induction rows generalizing seen with
  | nil =>
    cases (seen.filter (fun p => rowKey p == k)).head? <;>
      simp [headwayScan, consecDiffs, consecDiffsFrom]
  | cons r rest ih =>
    rw [headwayScan]
    by_cases hk : rowKey r == k
    · have hkeq : rowKey r = k := by simpa using hk
      have hfilt : (fun p => rowKey p == rowKey r) = (fun p : GtfsStopRow => rowKey p == k) := by
        rw [hkeq]
      have hnext := ih (r :: seen)
      have hhead : ((r :: seen).filter (fun p => rowKey p == k)).head? = some r := by
        simp [List.filter_cons, hk]
      rw [hhead] at hnext
      cases hseen : (seen.filter (fun p => rowKey p == k)).head? with
      | none =>
        simp only [List.filter_cons, hk, if_true, List.map_cons, hfilt, hseen,
          consecDiffs, Option.map_none', hnext]
      | some p0 =>
        simp only [List.filter_cons, hk, if_true, List.map_cons, hfilt, hseen,
          consecDiffsFrom, Option.map_some', hnext]
    · have hk2 : (rowKey r == k) = false := by simpa using hk
      have hnext := ih (r :: seen)
      have hhead : ((r :: seen).filter (fun p => rowKey p == k)) =
          seen.filter (fun p => rowKey p == k) := by
        simp [List.filter_cons, hk2]
      rw [hhead] at hnext
      simp only [List.filter_cons, hk2, Bool.false_eq_true, if_false]
      rw [hnext]

theorem annotateSched_eq_map (rows : List GtfsStopRow) :
    annotateSched rows = (headwayScan [] rows).map (annotatePair rows) := rfl

/-- C9 (amended): in `add_gtfs_headways` the joined schedule is sorted by
`arrival_time`; within each `(route_id, direction_id, stop_id)` group the
`scheduled_headway` column is the seconds component (`mod 86400`, via
`.dt.seconds`) of the consecutive `arrival_time` differences, with the first
row of each group left empty; the event is attached the `scheduled_headway`
of the last schedule row of its group with `arrival_time` at most the
event's time since midnight of the service date — a row of maximal such
`arrival_time` — and when no such row exists the column is left empty. -/
theorem c9_headways_and_asof_join (e : HeadwayEvent) (all_trips : List TripRow)
    (all_stops : List StopTimeRow) :
    List.Pairwise (fun a b => a.arrival_time ≤ b.arrival_time)
      (sortByArrival (mergeTripInfo all_stops
        (all_trips.filter (fun tr => tr.route_id == e.route_id)))) ∧
    (∀ k : String × Nat × String,
      ((annotateSched (sortByArrival (mergeTripInfo all_stops
          (all_trips.filter (fun tr => tr.route_id == e.route_id))))).filter
            (fun sr => rowKey sr.row == k)).map (fun sr => sr.scheduled_headway)
        = consecDiffs
            (((sortByArrival (mergeTripInfo all_stops
                (all_trips.filter (fun tr => tr.route_id == e.route_id)))).filter
                  (fun q => rowKey q == k)).map (fun q => q.arrival_time))) ∧
    ((add_gtfs_headways e all_trips all_stops).scheduled_headway
      = (((annotateSched (sortByArrival (mergeTripInfo all_stops
            (all_trips.filter (fun tr => tr.route_id == e.route_id))))).filter
              (fun sr => sameKeyEvent e sr.row && sr.row.arrival_time ≤ eventArrival e)).getLast?).bind
          (fun sr => sr.scheduled_headway)) ∧
    (∀ m, (((annotateSched (sortByArrival (mergeTripInfo all_stops
            (all_trips.filter (fun tr => tr.route_id == e.route_id))))).filter
              (fun sr => sameKeyEvent e sr.row && sr.row.arrival_time ≤ eventArrival e)).getLast?)
          = some m →
      sameKeyEvent e m.row = true ∧ m.row.arrival_time ≤ eventArrival e ∧
        ∀ sr ∈ annotateSched (sortByArrival (mergeTripInfo all_stops
            (all_trips.filter (fun tr => tr.route_id == e.route_id)))),
          sameKeyEvent e sr.row = true → sr.row.arrival_time ≤ eventArrival e →
            sr.row.arrival_time ≤ m.row.arrival_time) ∧
    ((∀ sr ∈ annotateSched (sortByArrival (mergeTripInfo all_stops
          (all_trips.filter (fun tr => tr.route_id == e.route_id)))),
        sameKeyEvent e sr.row = true → ¬ sr.row.arrival_time ≤ eventArrival e) →
      (add_gtfs_headways e all_trips all_stops).scheduled_headway = none) := by
  have hsorted := sortByArrival_pairwise (mergeTripInfo all_stops
    (all_trips.filter (fun tr => tr.route_id == e.route_id)))
  have hschedsorted : List.Pairwise (fun a b : SchedRow => a.row.arrival_time ≤ b.row.arrival_time)
      (annotateSched (sortByArrival (mergeTripInfo all_stops
        (all_trips.filter (fun tr => tr.route_id == e.route_id))))) := by
    rw [annotateSched_eq_map]
    refine (List.pairwise_map).mpr ?_
    have h1 := hsorted
    have hfst := headwayScan_map_fst (sortByArrival (mergeTripInfo all_stops
      (all_trips.filter (fun tr => tr.route_id == e.route_id)))) []
    rw [← hfst] at h1
    have h2 := List.pairwise_map.mp h1
    exact h2
  refine ⟨hsorted, fun k => ?_, rfl, fun m hm => ?_, fun hnone => ?_⟩
  · rw [annotateSched_eq_map, filter_map_comm, List.map_map]
    exact headwayScan_filter_key k _ []
  · have h := getLast?_filter_max (fun sr : SchedRow => sr.row.arrival_time)
      (fun sr => sameKeyEvent e sr.row && sr.row.arrival_time ≤ eventArrival e)
      _ hschedsorted m hm
    obtain ⟨hpm, hmax⟩ := h
    rw [Bool.and_eq_true] at hpm
    refine ⟨hpm.1, by simpa using hpm.2, fun sr hsr h1 h2 => ?_⟩
    exact hmax sr hsr (by simp [h1, h2])
  · have hfil : ((annotateSched (sortByArrival (mergeTripInfo all_stops
        (all_trips.filter (fun tr => tr.route_id == e.route_id))))).filter
          (fun sr => sameKeyEvent e sr.row && sr.row.arrival_time ≤ eventArrival e)) = [] := by
      rw [List.filter_eq_nil_iff]
      intro sr hsr
      rw [Bool.and_eq_true]
      rintro ⟨h1, h2⟩
      exact hnone sr hsr h1 (by simpa using h2)
    have h3 : (add_gtfs_headways e all_trips all_stops).scheduled_headway
        = (((annotateSched (sortByArrival (mergeTripInfo all_stops
            (all_trips.filter (fun tr => tr.route_id == e.route_id))))).filter
              (fun sr => sameKeyEvent e sr.row && sr.row.arrival_time ≤ eventArrival e)).getLast?).bind
          (fun sr => sr.scheduled_headway) := rfl
    rw [h3, hfil]
    rfl

/-- C9 counterexample: the claim says `scheduled_headway` equals the
consecutive difference of `arrival_time` in seconds.  The source computes
`.dt.seconds`, the seconds *component* of the timedelta: for consecutive
arrivals 90000 s (25 h) apart the attached headway is 3600, not 90000. -/
theorem c9_counterexample_seconds_component :
    eventArrival c9Event = 90000 ∧
    (add_gtfs_headways c9Event c9Trips c9Stops).scheduled_headway = some 3600 ∧
    (3600 : Int) ≠ 90000 := by
  refine ⟨by decide, by decide, by decide⟩

/-- C9 witness: on an empty schedule no as-of match exists and the headway
column is left empty. -/
theorem c9_headways_and_asof_join_witness :
    (add_gtfs_headways c9Event [] []).scheduled_headway = none := by
  refine (c9_headways_and_asof_join c9Event [] []).2.2.2.2 ?_
  intro sr hsr
  simp [annotateSched, headwayScan, mergeTripInfo, sortByArrival] at hsr

end Gobble

